import Mathlib

/-!
Verification of the VideoCall media-session orchestrator.

Shallow embedding of `src/src/components/VideoCall.tsx`: the React component
that joins an Agora RTC channel, manages local capture tracks, maintains the
remote-participant list from transport events, and tears the session down.

Modelling conventions:
* React state setters (`setUsers`, `setHasJoined`, ...) become explicit
  state passing; each embedded operation returns its new state together with
  a trace of the observable calls it makes (transport calls, toast
  notifications, console logs, the `onLeave` callback).
* JavaScript is single-threaded with cooperative scheduling, so an
  interleaving is fully described by which suspension points the
  `AbortController` signal is observed at: the embedded `init` takes the
  value of `signal.aborted` at each of its two explicit checks as input.
* Exceptions are modelled by Boolean failure flags on the steps that can
  throw; a step that throws aborts the surrounding straight-line code up to
  the nearest enclosing `try`.
-/

set_option autoImplicit false

namespace VideoCall

/-- The media kinds of the transport events (`mediaType` in the source). -/
inductive MediaKind
  | audio
  | video
deriving DecidableEq, Repr

/-- Agora client connection states (`client.connectionState`). -/
inductive ConnState
  | DISCONNECTED
  | CONNECTING
  | RECONNECTING
  | CONNECTED
  | DISCONNECTING
deriving DecidableEq, Repr

/-- A remote user object as stored in the `users` React state
(`IAgoraRTCRemoteUser`): the registry logic in the source only ever reads
`uid`; the per-kind track fields are carried so that statements about media
kinds can be expressed. -/
structure RemoteUser where
  uid : String
  hasAudioTrack : Bool
  hasVideoTrack : Bool
deriving DecidableEq, Repr

/-- Observable calls made by the component: transport calls, notifications,
console logs and the caller-supplied `onLeave` callback. -/
inductive Effect
  | joinCall
  | warnLog
  | errorLog
  | toastSuccess
  | toastError
  | onLeaveCall
  | setClientRoleHost
  | subscribe (uid : String) (kind : MediaKind)
  | playAudio (uid : String)
  | playVideoDeferred (uid : String)
  | closeAudio
  | closeVideo
  | unpublishTracks (hadAudio hadVideo : Bool)
  | createAudio (micId : String)
  | createVideo (camId : String)
  | publishTracks (withAudio withVideo : Bool)
  | transportLeave
  | setPlaybackDevice (id : String)
deriving DecidableEq, Repr

/-! ## RemoteParticipantRegistry: the transport event handlers

Source, `client.on('user-published', ...)` (lines 80-95):
```
await client.subscribe(user, mediaType);
setUsers(prev => {
  const exists = prev.find(u => u.uid === user.uid);
  return exists ? prev : [...prev, user];
});
if (mediaType === 'audio') user.audioTrack?.play();
if (mediaType === 'video') { setTimeout(() => ... user.videoTrack.play(el), 300); }
```
and `client.on('user-unpublished', ...)` (lines 97-99):
```
setUsers(prev => prev.filter(u => u.uid !== user.uid));
```
-/

/-- The `setUsers` updater of the `user-published` handler: insert the user
unless a record with the same uid already exists. -/
def insertUser (prev : List RemoteUser) (user : RemoteUser) : List RemoteUser :=
  if prev.any (fun u => u.uid == user.uid) then prev else prev ++ [user]

/-- The full `user-published` handler: an unconditional transport subscribe,
then the deduplicating insertion, then the play side effects. -/
def handleUserPublished (prev : List RemoteUser) (user : RemoteUser)
    (mediaType : MediaKind) : List RemoteUser × List Effect :=
  (insertUser prev user,
    [Effect.subscribe user.uid mediaType] ++
      (match mediaType with
        | MediaKind.audio => [Effect.playAudio user.uid]
        | MediaKind.video => [Effect.playVideoDeferred user.uid]))

/-- The `user-unpublished` handler: the source ignores which media kind was
unpublished and filters the whole user record out by uid. The `mediaType`
argument mirrors the event payload the transport delivers; the handler's
callback does not bind it. -/
def handleUserUnpublished (prev : List RemoteUser) (uid : String)
    (mediaType : MediaKind) : List RemoteUser :=
  prev.filter (fun u => u.uid != uid)

/-- A transport event stream element. -/
inductive TransportEvent
  | published (user : RemoteUser) (mediaType : MediaKind)
  | unpublished (uid : String) (mediaType : MediaKind)
deriving DecidableEq, Repr

/-- Registry evolution under one transport event (state part only). -/
def applyEvent (users : List RemoteUser) : TransportEvent → List RemoteUser
  | TransportEvent.published user mediaType => (handleUserPublished users user mediaType).1
  | TransportEvent.unpublished uid mediaType => handleUserUnpublished users uid mediaType

/-- Registry contents after a whole event sequence, starting from the initial
`useState` value `[]`. -/
def runEvents (evts : List TransportEvent) : List RemoteUser :=
  evts.foldl applyEvent []

/-! ## SessionController: `init` (lines 60-107)

```
const init = async () => {
  if (!client || client.connectionState !== 'DISCONNECTED') {
    console.warn('Client already connected or connecting');
    return;
  }
  try {
    const uid = `${userName}-${...random...}`;
    const joinPromise = client.join(APP_ID, channelName, null, uid);
    if (abortController.signal.aborted) return;
    await joinPromise;
    if (abortController.signal.aborted) return;
    setHasJoined(true);
    client.setClientRole('host');
    toast.success('Connected to video call');
    client.on('user-published', ...);
    client.on('user-unpublished', ...);
  } catch (err) {
    if ((err as any).code !== 'OPERATION_ABORTED') {
      console.error('Error initializing video call:', err);
      toast.error('Failed to connect to video call');
      onLeave();
    }
  }
};
```
-/

/-- Inputs determining one execution of `init`: the connection state at
entry, the value of `abortController.signal.aborted` at each of the two
checks, and how the transport join settles (`Except.error c` is a rejection
whose error object has `code = c`). The first check runs synchronously
before the only suspension point (`await joinPromise`), so in a reachable
interleaving `abortedBeforeAwait` can only be `true` if the cleanup closure
aborted before `init` started. -/
structure InitInput where
  connectionState : ConnState
  abortedBeforeAwait : Bool
  abortedAfterAwait : Bool
  joinResult : Except String Unit
deriving Repr

/-- What one execution of `init` did: whether it called `setHasJoined(true)`,
whether it registered the `user-published`/`user-unpublished` handlers, and
its trace of observable calls. -/
structure InitResult where
  setHasJoinedTrue : Bool
  registeredHandlers : Bool
  effects : List Effect
deriving DecidableEq, Repr

/-- The embedded `init`. A rejected `await joinPromise` transfers control to
the `catch` directly, so the post-await abort check only runs on the success
path; the `catch` itself performs no abort check, only the error-code test. -/
def init (inp : InitInput) : InitResult :=
  if inp.connectionState ≠ ConnState.DISCONNECTED then
    { setHasJoinedTrue := false, registeredHandlers := false
      effects := [Effect.warnLog] }
  else if inp.abortedBeforeAwait then
    { setHasJoinedTrue := false, registeredHandlers := false
      effects := [Effect.joinCall] }
  else
    match inp.joinResult with
    | Except.ok _ =>
        if inp.abortedAfterAwait then
          { setHasJoinedTrue := false, registeredHandlers := false
            effects := [Effect.joinCall] }
        else
          { setHasJoinedTrue := true, registeredHandlers := true
            effects := [Effect.joinCall, Effect.setClientRoleHost, Effect.toastSuccess] }
    | Except.error code =>
        if code = "OPERATION_ABORTED" then
          { setHasJoinedTrue := false, registeredHandlers := false
            effects := [Effect.joinCall] }
        else
          { setHasJoinedTrue := false, registeredHandlers := false
            effects := [Effect.joinCall, Effect.errorLog, Effect.toastError,
                        Effect.onLeaveCall] }

/-! ## LocalTrackSet: `setupTracks` (lines 126-157)

```
const setupTracks = async () => {
  if (!client || !hasJoined || client.connectionState !== 'CONNECTED' ||
      !selectedCameraId || !selectedMicId) return;
  try {
    localAudioTrack?.close();
    localVideoTrack?.close();
    await client.unpublish([localAudioTrack, localVideoTrack].filter(Boolean));
    const audioTrack = await AgoraRTC.createMicrophoneAudioTrack({ microphoneId: selectedMicId });
    const videoTrack = await AgoraRTC.createCameraVideoTrack({ cameraId: selectedCameraId });
    setLocalAudioTrack(audioTrack);
    setLocalVideoTrack(videoTrack);
    await client.publish([audioTrack, videoTrack]);
  } catch (error) { console.error(...); toast.error('Could not update media tracks'); }
};
```
-/

/-- The local track set: the device id each owned track is bound to
(`none` when the corresponding React state variable is `null`). -/
structure LocalTracks where
  audioDevice : Option String
  videoDevice : Option String
deriving DecidableEq, Repr

/-- The embedded `setupTracks`, on its success path (no step throws; the
`catch` branch is not exercised by the claims about call counts). Returns
the new track state and the trace of lifecycle/transport calls, in source
order: close the old audio track if present, close the old video track if
present, one unpublish call whose argument is the list of previously present
tracks, one create per kind, one publish call carrying both new tracks. -/
def setupTracks (hasJoined : Bool) (connectionState : ConnState)
    (selectedCameraId selectedMicId : String) (tracks : LocalTracks) :
    LocalTracks × List Effect :=
  if ¬hasJoined ∨ connectionState ≠ ConnState.CONNECTED ∨
      selectedCameraId = "" ∨ selectedMicId = "" then
    (tracks, [])
  else
    (⟨some selectedMicId, some selectedCameraId⟩,
      (if tracks.audioDevice.isSome then [Effect.closeAudio] else []) ++
      (if tracks.videoDevice.isSome then [Effect.closeVideo] else []) ++
      [Effect.unpublishTracks tracks.audioDevice.isSome tracks.videoDevice.isSome,
       Effect.createAudio selectedMicId,
       Effect.createVideo selectedCameraId,
       Effect.publishTracks true true])

/-! ## Teardown: the effect cleanup closure (lines 111-123) and
`handleLeave` (lines 179-185)

```
return () => {
  abortController.abort();
  const cleanup = async () => {
    try {
      localAudioTrack?.close();
      localVideoTrack?.close();
      await client.leave();
    } catch (err) { console.warn('Error during cleanup:', err); }
  };
  void cleanup();
};

const handleLeave = () => {
  localAudioTrack?.close();
  localVideoTrack?.close();
  client.leave();
  onLeave();
  toast.success('Left video call');
};
```
-/

/-- Which teardown steps throw when attempted. `track.close()` is a
synchronous call that can throw; `client.leave()` returns a promise whose
rejection is what `leaveFails` models. -/
structure FailureSpec where
  audioCloseFails : Bool
  videoCloseFails : Bool
  leaveFails : Bool
deriving DecidableEq, Repr

/-- The embedded `cleanup` closure: the three steps sit inside one `try`, so
the first step that throws jumps to the single `catch`, which logs a console
warning; the steps after the throwing one are not attempted. Returns the
trace of attempted calls and whether an exception escaped to the caller
(always `false`: the `catch` swallows everything). -/
def cleanup (tracks : LocalTracks) (f : FailureSpec) : List Effect × Bool :=
  if tracks.audioDevice.isSome ∧ f.audioCloseFails then
    ([Effect.closeAudio, Effect.warnLog], false)
  else
    let afterAudio := if tracks.audioDevice.isSome then [Effect.closeAudio] else []
    if tracks.videoDevice.isSome ∧ f.videoCloseFails then
      (afterAudio ++ [Effect.closeVideo, Effect.warnLog], false)
    else
      let afterVideo := afterAudio ++
        (if tracks.videoDevice.isSome then [Effect.closeVideo] else [])
      if f.leaveFails then
        (afterVideo ++ [Effect.transportLeave, Effect.warnLog], false)
      else
        (afterVideo ++ [Effect.transportLeave], false)

/-- The embedded `handleLeave`: no `try`/`catch` at all, so a throwing
`close()` aborts the remaining steps and the exception escapes to the caller
(second component `true`). `client.leave()` is not awaited, so a rejected
leave promise neither stops the handler nor surfaces synchronously. The
handler performs no `setUsers`, `setLocalAudioTrack`, `setLocalVideoTrack`
or `setHasJoined` call: the React state is left untouched. -/
def handleLeave (users : List RemoteUser) (tracks : LocalTracks)
    (f : FailureSpec) : List RemoteUser × List Effect × Bool :=
  if tracks.audioDevice.isSome ∧ f.audioCloseFails then
    (users, [Effect.closeAudio], true)
  else
    let afterAudio := if tracks.audioDevice.isSome then [Effect.closeAudio] else []
    if tracks.videoDevice.isSome ∧ f.videoCloseFails then
      (users, afterAudio ++ [Effect.closeVideo], true)
    else
      let afterVideo := afterAudio ++
        (if tracks.videoDevice.isSome then [Effect.closeVideo] else [])
      (users, afterVideo ++ [Effect.transportLeave, Effect.onLeaveCall,
        Effect.toastSuccess], false)

/-! ## DeviceCatalog: the `<select>` change handlers (lines 190-201)

```
<select onChange={e => setSelectedCameraId(e.target.value)} ...>
<select onChange={e => setSelectedMicId(e.target.value)} ...>
<select onChange={e => { setSelectedSpeakerId(e.target.value);
                         client.setPlaybackDevice?.(e.target.value); }} ...>
```
-/

/-- A `MediaDeviceInfo` entry as the device lists hold it. -/
structure DeviceInfo where
  deviceId : String
  label : String
deriving DecidableEq, Repr

/-- The device-related React state: the three enumerated lists and the three
current selections. -/
structure DeviceState where
  cameras : List DeviceInfo
  microphones : List DeviceInfo
  speakers : List DeviceInfo
  selectedCameraId : String
  selectedMicId : String
  selectedSpeakerId : String
deriving DecidableEq, Repr

/-- The camera `<select>` `onChange` handler: stores the incoming value
unconditionally; no validation, no transport call. -/
def selectCamera (s : DeviceState) (deviceId : String) : DeviceState × List Effect :=
  ({ s with selectedCameraId := deviceId }, [])

/-- The microphone `<select>` `onChange` handler: stores the incoming value
unconditionally; no validation, no transport call. -/
def selectMic (s : DeviceState) (deviceId : String) : DeviceState × List Effect :=
  ({ s with selectedMicId := deviceId }, [])

/-- The speaker `<select>` `onChange` handler: stores the incoming value
unconditionally and asks the transport to switch the playback device; no
validation. -/
def selectSpeaker (s : DeviceState) (deviceId : String) : DeviceState × List Effect :=
  ({ s with selectedSpeakerId := deviceId }, [Effect.setPlaybackDevice deviceId])

/-! ## Claims about `init` -/

/-- C1: if leave/cancellation is signaled before a pending transport join
call resolves — i.e. the abort flag is observed set at the pre-await check
or at the explicit post-await re-check — then when `init`'s join call
settles, `init` does not call `setHasJoined(true)` and does not register the
participant-event handlers, for every interleaving and for both a
successful and a failed join resolution. -/
theorem init_cancel_before_resolution_no_connect (inp : InitInput)
    (h : inp.abortedBeforeAwait = true ∨ inp.abortedAfterAwait = true) :
    (init inp).setHasJoinedTrue = false ∧ (init inp).registeredHandlers = false := by
  rcases inp with ⟨cs, b1, b2, jr⟩
  by_cases hcs : cs = ConnState.DISCONNECTED
  · subst hcs
    cases b1 with
    | true => simp [init]
    | false =>
      rcases h with h | h
      · exact absurd h (by simp)
      · simp only at h
        subst h
        cases jr with
        | ok u => simp [init]
        | error c =>
            by_cases hc : c = "OPERATION_ABORTED" <;> simp [init, hc]
  · simp [init, hcs]

/-- Witness for C1: abort observed at the post-await re-check after the join
resolved successfully; the join still does not connect. -/
theorem init_cancel_before_resolution_no_connect_witness :
    (init ⟨ConnState.DISCONNECTED, false, true, Except.ok ()⟩).setHasJoinedTrue = false ∧
      (init ⟨ConnState.DISCONNECTED, false, true, Except.ok ()⟩).registeredHandlers = false :=
  init_cancel_before_resolution_no_connect _ (Or.inr rfl)

/-- C4 counterexample: calling `init` while the client is CONNECTED produces
only a console warning. No `AlreadyActive` (or any) error reaches the
caller: the component's only channels to the caller are the toast
notifications, the `onLeave` callback and a thrown exception, and the trace
is exactly `[warnLog]`, with no toast, no `onLeave` and also no join
attempt. -/
theorem init_already_active_counterexample :
    (init ⟨ConnState.CONNECTED, false, false, Except.ok ()⟩).effects = [Effect.warnLog] ∧
    Effect.toastError ∉ (init ⟨ConnState.CONNECTED, false, false, Except.ok ()⟩).effects ∧
    Effect.onLeaveCall ∉ (init ⟨ConnState.CONNECTED, false, false, Except.ok ()⟩).effects ∧
    Effect.joinCall ∉ (init ⟨ConnState.CONNECTED, false, false, Except.ok ()⟩).effects := by
  decide

/-- C4 amended: for every call to `init` while the connection state is not
DISCONNECTED, the call returns immediately as a silent no-op that only logs
a console warning — no error is surfaced to the caller — and no join
attempt, state transition or transport call is made. -/
theorem init_not_disconnected_silent_noop (inp : InitInput)
    (h : inp.connectionState ≠ ConnState.DISCONNECTED) :
    init inp = { setHasJoinedTrue := false, registeredHandlers := false
                 effects := [Effect.warnLog] } := by
  simp [init, h]

/-- Witness for the amended C4 at connection state CONNECTING. -/
theorem init_not_disconnected_silent_noop_witness :
    init ⟨ConnState.CONNECTING, false, false, Except.ok ()⟩ =
      { setHasJoinedTrue := false, registeredHandlers := false
        effects := [Effect.warnLog] } :=
  init_not_disconnected_silent_noop _ (by decide)

/-- C10: when the awaited join call rejects, the `catch` is silent for the
error code OPERATION_ABORTED (no error toast, no `onLeave`), and for every
other error code it shows the connection-failure toast and invokes `onLeave`
exactly once. The pre-await abort flag is `false` here because that check
runs synchronously before the only suspension point, so no reachable
interleaving sets it; the post-await flag is arbitrary since the `catch`
never consults it. -/
theorem init_rejection_error_code_dispatch (ab2 : Bool) (code : String)
    (h : code ≠ "OPERATION_ABORTED") :
    ((init ⟨ConnState.DISCONNECTED, false, ab2, Except.error "OPERATION_ABORTED"⟩).effects.count
        Effect.toastError = 0 ∧
     (init ⟨ConnState.DISCONNECTED, false, ab2, Except.error "OPERATION_ABORTED"⟩).effects.count
        Effect.onLeaveCall = 0) ∧
    ((init ⟨ConnState.DISCONNECTED, false, ab2, Except.error code⟩).effects.count
        Effect.toastError = 1 ∧
     (init ⟨ConnState.DISCONNECTED, false, ab2, Except.error code⟩).effects.count
        Effect.onLeaveCall = 1) := by
  constructor
  · constructor <;> rfl
  · simp [init, h, List.count_cons, List.count_nil]

/-- Witness for C10 at the concrete rejection code NETWORK_ERROR. -/
theorem init_rejection_error_code_dispatch_witness :
    ((init ⟨ConnState.DISCONNECTED, false, false,
        Except.error "OPERATION_ABORTED"⟩).effects.count Effect.toastError = 0 ∧
     (init ⟨ConnState.DISCONNECTED, false, false,
        Except.error "OPERATION_ABORTED"⟩).effects.count Effect.onLeaveCall = 0) ∧
    ((init ⟨ConnState.DISCONNECTED, false, false,
        Except.error "NETWORK_ERROR"⟩).effects.count Effect.toastError = 1 ∧
     (init ⟨ConnState.DISCONNECTED, false, false,
        Except.error "NETWORK_ERROR"⟩).effects.count Effect.onLeaveCall = 1) :=
  init_rejection_error_code_dispatch false "NETWORK_ERROR" (by decide)

/-! ## Claims about the registry event handlers -/

/-- C2 counterexample: bob-42 has both audio and video published; a single
unpublished(bob-42, audio) event removes his record entirely even though his
video kind is still live — the handler ignores the media kind, so the
participant does not stay in the registry. -/
theorem unpublished_drops_participant_with_live_video :
    handleUserUnpublished [⟨"bob-42", true, true⟩] "bob-42" MediaKind.audio = [] := by
  decide

/-- C2 amended: on an unpublished(uid) event the participant record is
removed from the registry entirely, regardless of which media kind the event
reports and regardless of any still-published kind: a record survives the
event exactly when its uid differs from the event's uid. -/
theorem handleUserUnpublished_mem (prev : List RemoteUser) (uid : String)
    (mediaType : MediaKind) (u : RemoteUser) :
    u ∈ handleUserUnpublished prev uid mediaType ↔ u ∈ prev ∧ u.uid ≠ uid := by
  simp [handleUserUnpublished, List.mem_filter, bne_iff_ne]

/-- C5 counterexample: two published(bob-42, video) events in a row. The
registry keeps a single record, but the combined trace contains two
transport subscribe calls for the same uid/kind pair: the subscribe is
issued before the dedup check, so the second event is not a complete
no-op. -/
theorem duplicate_published_issues_second_subscribe :
    (handleUserPublished [] ⟨"bob-42", false, true⟩ MediaKind.video).1 =
      [⟨"bob-42", false, true⟩] ∧
    (handleUserPublished [⟨"bob-42", false, true⟩] ⟨"bob-42", false, true⟩
        MediaKind.video).1 = [⟨"bob-42", false, true⟩] ∧
    ((handleUserPublished [] ⟨"bob-42", false, true⟩ MediaKind.video).2 ++
      (handleUserPublished [⟨"bob-42", false, true⟩] ⟨"bob-42", false, true⟩
        MediaKind.video).2).count (Effect.subscribe "bob-42" MediaKind.video) = 2 := by
  decide

/-- C5 amended: a second published event for an already-present uid leaves
the registry unchanged (no duplicate record), but it does issue another
transport subscribe call for that uid/kind — the subscribe is unconditional
on every published event. -/
theorem handleUserPublished_duplicate_registry_noop_but_subscribes
    (prev : List RemoteUser) (user : RemoteUser) (mediaType : MediaKind)
    (h : prev.any (fun u => u.uid == user.uid) = true) :
    (handleUserPublished prev user mediaType).1 = prev ∧
    Effect.subscribe user.uid mediaType ∈ (handleUserPublished prev user mediaType).2 := by
  refine ⟨by simp [handleUserPublished, insertUser, h], ?_⟩
  cases mediaType <;> simp [handleUserPublished]

/-- Witness for the amended C5: a duplicate published event for bob-42. -/
theorem handleUserPublished_duplicate_registry_noop_but_subscribes_witness :
    (handleUserPublished [⟨"bob-42", false, true⟩] ⟨"bob-42", false, true⟩
        MediaKind.video).1 = [⟨"bob-42", false, true⟩] ∧
    Effect.subscribe "bob-42" MediaKind.video ∈
      (handleUserPublished [⟨"bob-42", false, true⟩] ⟨"bob-42", false, true⟩
        MediaKind.video).2 :=
  handleUserPublished_duplicate_registry_noop_but_subscribes _ _ _ (by decide)

/-! ## Claims about `setupTracks` -/

/-- C3 counterexample: selecting a new microphone (mic-old → mic-new) while
Connected with both tracks published. The claim says zero calls affect the
video track, but the trace closes the video track, recreates it for the
unchanged camera, and the unpublish and publish transport calls both carry
the video track. -/
theorem mic_change_affects_video_track :
    ((setupTracks true ConnState.CONNECTED "cam-1" "mic-new"
        ⟨some "mic-old", some "cam-1"⟩).2.count Effect.closeVideo = 1) ∧
    ((setupTracks true ConnState.CONNECTED "cam-1" "mic-new"
        ⟨some "mic-old", some "cam-1"⟩).2.count (Effect.createVideo "cam-1") = 1) ∧
    ((setupTracks true ConnState.CONNECTED "cam-1" "mic-new"
        ⟨some "mic-old", some "cam-1"⟩).2.count (Effect.unpublishTracks true true) = 1) ∧
    ((setupTracks true ConnState.CONNECTED "cam-1" "mic-new"
        ⟨some "mic-old", some "cam-1"⟩).2.count (Effect.publishTracks true true) = 1) := by
  decide

/-- C3 amended: selecting a new microphone while Connected with an
already-published track set tears down and rebuilds both tracks: the trace
is exactly one close and one create per kind (audio bound to the new
microphone, video re-bound to the unchanged camera), one unpublish call
carrying both old tracks and one publish call carrying both new tracks —
not an audio-only swap. -/
theorem setupTracks_mic_change_rebuilds_both (cam oldMic newMic : String)
    (hcam : cam ≠ "") (hmic : newMic ≠ "") :
    setupTracks true ConnState.CONNECTED cam newMic ⟨some oldMic, some cam⟩ =
      (⟨some newMic, some cam⟩,
        [Effect.closeAudio, Effect.closeVideo, Effect.unpublishTracks true true,
         Effect.createAudio newMic, Effect.createVideo cam,
         Effect.publishTracks true true]) := by
  simp [setupTracks, hcam, hmic]

/-- Witness for the amended C3 at concrete device ids. -/
theorem setupTracks_mic_change_rebuilds_both_witness :
    setupTracks true ConnState.CONNECTED "cam-1" "mic-new"
        ⟨some "mic-old", some "cam-1"⟩ =
      (⟨some "mic-new", some "cam-1"⟩,
        [Effect.closeAudio, Effect.closeVideo, Effect.unpublishTracks true true,
         Effect.createAudio "mic-new", Effect.createVideo "cam-1",
         Effect.publishTracks true true]) :=
  setupTracks_mic_change_rebuilds_both _ _ _ (by decide) (by decide)

/-! ## Claims about teardown -/

/-- C6 counterexample: with both tracks present and the audio close
throwing, `cleanup` attempts neither the video close nor the transport
leave — the single try/catch makes teardown fail-fast, not total-effort —
and `handleLeave` at the same input lets the exception escape to the caller
without logging it. -/
theorem teardown_failure_aborts_remaining_steps :
    (cleanup ⟨some "mic-1", some "cam-1"⟩ ⟨true, false, false⟩).1 =
      [Effect.closeAudio, Effect.warnLog] ∧
    Effect.closeVideo ∉ (cleanup ⟨some "mic-1", some "cam-1"⟩ ⟨true, false, false⟩).1 ∧
    Effect.transportLeave ∉
      (cleanup ⟨some "mic-1", some "cam-1"⟩ ⟨true, false, false⟩).1 ∧
    (handleLeave [] ⟨some "mic-1", some "cam-1"⟩ ⟨true, false, false⟩).2.2 = true ∧
    Effect.warnLog ∉
      (handleLeave [] ⟨some "mic-1", some "cam-1"⟩ ⟨true, false, false⟩).2.1 := by
  decide

/-- C6 amended: in the effect-cleanup path a failing step's error is caught
and logged as a console warning and never surfaces to the caller, but the
steps after the failing one are skipped, because the whole sequence sits in
one try/catch; in `handleLeave` a failing close is neither caught nor
logged — it aborts the remaining steps and propagates to the caller. -/
theorem cleanup_logs_never_surfaces_but_fail_fast (tracks : LocalTracks)
    (f : FailureSpec) (users : List RemoteUser) :
    (cleanup tracks f).2 = false ∧
    (tracks.audioDevice.isSome = true → f.audioCloseFails = true →
      (cleanup tracks f).1 = [Effect.closeAudio, Effect.warnLog] ∧
      (handleLeave users tracks f).2.1 = [Effect.closeAudio] ∧
      (handleLeave users tracks f).2.2 = true) := by
  constructor
  · rcases tracks with ⟨a, v⟩
    rcases f with ⟨fa, fv, fl⟩
    cases a <;> cases v <;> cases fa <;> cases fv <;> cases fl <;> rfl
  · intro ha hf
    refine ⟨?_, ?_, ?_⟩ <;> simp [cleanup, handleLeave, ha, hf]

/-- Witness for the amended C6: both tracks present, audio close throws. -/
theorem cleanup_logs_never_surfaces_but_fail_fast_witness :
    (cleanup ⟨some "mic-1", some "cam-1"⟩ ⟨true, false, false⟩).2 = false ∧
    ((cleanup ⟨some "mic-1", some "cam-1"⟩ ⟨true, false, false⟩).1 =
        [Effect.closeAudio, Effect.warnLog] ∧
      (handleLeave [] ⟨some "mic-1", some "cam-1"⟩ ⟨true, false, false⟩).2.1 =
        [Effect.closeAudio] ∧
      (handleLeave [] ⟨some "mic-1", some "cam-1"⟩ ⟨true, false, false⟩).2.2 = true) :=
  ⟨(cleanup_logs_never_surfaces_but_fail_fast _ _ []).1,
    (cleanup_logs_never_surfaces_but_fail_fast _ _ []).2 rfl rfl⟩

/-- C7 counterexample: a registry holding bob-42 before leave still holds
bob-42 immediately after `handleLeave` completes — the handler performs no
`setUsers` call, so the participant list is not cleared by leave. -/
theorem registry_not_cleared_by_leave :
    (handleLeave [⟨"bob-42", true, true⟩] ⟨none, none⟩ ⟨false, false, false⟩).1 =
      [⟨"bob-42", true, true⟩] ∧
    (handleLeave [⟨"bob-42", true, true⟩] ⟨none, none⟩ ⟨false, false, false⟩).1 ≠ [] := by
  decide

/-- C7 amended: `handleLeave` leaves the participant list exactly as it was,
whatever its contents and whichever teardown steps fail; the registry state
is only discarded when the caller, via `onLeave`, unmounts the component. -/
theorem handleLeave_users_unchanged (users : List RemoteUser)
    (tracks : LocalTracks) (f : FailureSpec) :
    (handleLeave users tracks f).1 = users := by
  rcases tracks with ⟨a, v⟩
  rcases f with ⟨fa, fv, fl⟩
  cases a <;> cases v <;> cases fa <;> cases fv <;> cases fl <;> rfl

/-! ## Claims about the device-selection handlers -/

/-- C9 counterexample: ghost-mic is not in the microphone list, yet the
microphone onChange handler mutates the current selection to ghost-mic and
produces no effect at all — no `UnknownDevice` error, no validation. -/
theorem select_unknown_device_mutates_selection :
    (([⟨"mic-1", "Mic 1"⟩] : List DeviceInfo).any
        (fun d => d.deviceId == "ghost-mic")) = false ∧
    (selectMic ⟨[], [⟨"mic-1", "Mic 1"⟩], [], "", "mic-1", ""⟩
        "ghost-mic").1.selectedMicId = "ghost-mic" ∧
    (selectMic ⟨[], [⟨"mic-1", "Mic 1"⟩], [], "", "mic-1", ""⟩ "ghost-mic").2 = [] := by
  decide

/-- C9 amended: the selection handlers perform no validation: even a
deviceId absent from every device list mutates the corresponding selection,
and no error is raised; camera and microphone selection make no transport
call, and speaker selection issues the `setPlaybackDevice` transport call
unconditionally. -/
theorem select_handlers_no_validation (s : DeviceState) (deviceId : String)
    (hcam : s.cameras.all (fun d => d.deviceId != deviceId) = true)
    (hmic : s.microphones.all (fun d => d.deviceId != deviceId) = true)
    (hspk : s.speakers.all (fun d => d.deviceId != deviceId) = true) :
    (selectCamera s deviceId).1.selectedCameraId = deviceId ∧
    (selectCamera s deviceId).2 = [] ∧
    (selectMic s deviceId).1.selectedMicId = deviceId ∧
    (selectMic s deviceId).2 = [] ∧
    (selectSpeaker s deviceId).1.selectedSpeakerId = deviceId ∧
    (selectSpeaker s deviceId).2 = [Effect.setPlaybackDevice deviceId] :=
  ⟨rfl, rfl, rfl, rfl, rfl, rfl⟩

/-- Witness for the amended C9: ghost-mic is absent from every list. -/
theorem select_handlers_no_validation_witness :
    (selectCamera ⟨[], [⟨"mic-1", "Mic 1"⟩], [], "", "mic-1", ""⟩
        "ghost-mic").1.selectedCameraId = "ghost-mic" ∧
    (selectCamera ⟨[], [⟨"mic-1", "Mic 1"⟩], [], "", "mic-1", ""⟩ "ghost-mic").2 = [] ∧
    (selectMic ⟨[], [⟨"mic-1", "Mic 1"⟩], [], "", "mic-1", ""⟩
        "ghost-mic").1.selectedMicId = "ghost-mic" ∧
    (selectMic ⟨[], [⟨"mic-1", "Mic 1"⟩], [], "", "mic-1", ""⟩ "ghost-mic").2 = [] ∧
    (selectSpeaker ⟨[], [⟨"mic-1", "Mic 1"⟩], [], "", "mic-1", ""⟩
        "ghost-mic").1.selectedSpeakerId = "ghost-mic" ∧
    (selectSpeaker ⟨[], [⟨"mic-1", "Mic 1"⟩], [], "", "mic-1", ""⟩ "ghost-mic").2 =
      [Effect.setPlaybackDevice "ghost-mic"] :=
  select_handlers_no_validation ⟨[], [⟨"mic-1", "Mic 1"⟩], [], "", "mic-1", ""⟩
    "ghost-mic" (by decide) (by decide) (by decide)

/-! ## C8: uid uniqueness is an invariant of the registry -/

/-- All uids in a registry snapshot are pairwise distinct. -/
def UidsDistinct (users : List RemoteUser) : Prop :=
  users.Pairwise (fun a b => a.uid ≠ b.uid)

/-- The deduplicating insertion of the `user-published` handler preserves
uid distinctness. -/
theorem insertUser_uidsDistinct (users : List RemoteUser) (user : RemoteUser)
    (h : UidsDistinct users) : UidsDistinct (insertUser users user) := by
  unfold insertUser
  split
  · exact h
  · rename_i hany
    rw [UidsDistinct, List.pairwise_append]
    refine ⟨h, List.pairwise_singleton _ _, ?_⟩
    intro a ha b hb heq
    apply hany
    rw [List.any_eq_true]
    rw [List.mem_singleton] at hb
    subst hb
    exact ⟨a, ha, by simp [heq]⟩

/-- Each transport event preserves uid distinctness. -/
theorem applyEvent_uidsDistinct (users : List RemoteUser) (e : TransportEvent)
    (h : UidsDistinct users) : UidsDistinct (applyEvent users e) := by
  cases e with
  | published user k => exact insertUser_uidsDistinct users user h
  | unpublished uid k =>
      exact List.Pairwise.sublist (List.filter_sublist _) h

/-- Folding any event suffix over a uid-distinct registry keeps it
uid-distinct. -/
theorem foldl_applyEvent_uidsDistinct (evts : List TransportEvent)
    (users : List RemoteUser) (h : UidsDistinct users) :
    UidsDistinct (evts.foldl applyEvent users) := by
  induction evts generalizing users with
  | nil => exact h
  | cons e rest ih => exact ih _ (applyEvent_uidsDistinct users e h)

/-- C8: for every sequence of published/unpublished transport events the
registry never contains two records with the same uid, and a published event
for an already-present uid leaves the participant list unchanged — uid
uniqueness is an invariant preserved by every registry operation. -/
theorem registry_uid_uniqueness_invariant (evts : List TransportEvent) :
    UidsDistinct (runEvents evts) ∧
    ∀ (users : List RemoteUser) (user : RemoteUser) (k : MediaKind),
      (∃ v ∈ users, v.uid = user.uid) →
      applyEvent users (TransportEvent.published user k) = users := by
  constructor
  · exact foldl_applyEvent_uidsDistinct evts [] List.Pairwise.nil
  · rintro users user k ⟨v, hv, huid⟩
    show insertUser users user = users
    unfold insertUser
    rw [if_pos]
    rw [List.any_eq_true]
    exact ⟨v, hv, by simp [huid]⟩

/-- Witness for C8: a duplicate published event for bob-42 (audio arriving
after video) leaves the one-record registry unchanged, and the run of both
events has distinct uids. -/
theorem registry_uid_uniqueness_invariant_witness :
    UidsDistinct (runEvents
      [TransportEvent.published ⟨"bob-42", false, true⟩ MediaKind.video,
       TransportEvent.published ⟨"bob-42", true, false⟩ MediaKind.audio]) ∧
    applyEvent [⟨"bob-42", false, true⟩]
        (TransportEvent.published ⟨"bob-42", true, false⟩ MediaKind.audio) =
      [⟨"bob-42", false, true⟩] :=
  ⟨(registry_uid_uniqueness_invariant _).1,
    (registry_uid_uniqueness_invariant []).2 _ _ _
      ⟨⟨"bob-42", false, true⟩, List.mem_singleton.mpr rfl, rfl⟩⟩

end VideoCall
